import Mathlib

/-!
Verification of the ASF measurement core of NFD
(`src/daemon/fw/asf-measurements.hpp`).

Shallow embedding: durations (`time::nanoseconds`, `time::milliseconds`)
become `Int` (the unit of each field follows the C++ declaration); names
(`ndn::Name`) become lists of opaque component tokens; the external
scheduler becomes an explicit state (`Sched`) of pending event ids threaded
through the operations that touch timers; `ndn::scheduler::ScopedEventId`
becomes `Option Nat` (the id of the held event, `none` when empty); the
external RTT estimator is kept abstract as the list of samples fed to it
(its smoothing math is an external collaborator per the design).

Method bodies that live in the repository's `asf-measurements.cpp`
(`FaceInfo::scheduleTimeout`, `FaceInfo::cancelTimeout`,
`AsfMeasurements::extendLifetime`) are not among the supplied sources; those
definitions are modelled from the spec and say so in their doc comments.
-/

/-- A name is a sequence of components; components are opaque tokens. -/
abbrev NdnName := List Nat

/-- External scheduler state: a fresh-id counter and the ids of the events
that are currently pending (scheduled and neither fired nor cancelled). -/
structure Sched where
  nextId : Nat
  pending : List Nat
deriving Repr, DecidableEq

/-- `schedule(duration, callback) -> handle`: allocates a fresh event id,
appends it to the pending set, and returns the id. -/
def Sched.schedule (s : Sched) : Nat × Sched :=
  (s.nextId, ⟨s.nextId + 1, s.pending ++ [s.nextId]⟩)

/-- Cancel the event with id `i`: removes it from the pending set. -/
def Sched.cancelId (s : Sched) (i : Nat) : Sched :=
  ⟨s.nextId, s.pending.filter (fun j => j ≠ i)⟩

/-- Cancel through a `ScopedEventId` handle: a no-op when the handle is
empty, otherwise cancels the held event. -/
def cancelEvent (e : Option Nat) (s : Sched) : Sched :=
  match e with
  | none => s
  | some i => s.cancelId i

/-- External `ndn::util::RttEstimator`, kept abstract: the options it was
constructed from (opaque) and the list of samples fed via
`addMeasurement`. Its smoothing formula is an external collaborator. -/
structure RttEstimator where
  opts : Nat
  samples : List Int
deriving Repr, DecidableEq

/-- `RttEstimator::addMeasurement(rtt)`: feeds one sample. -/
def RttEstimator.addMeasurement (r : RttEstimator) (rtt : Int) : RttEstimator :=
  { r with samples := r.samples ++ [rtt] }

/-- `FaceInfo::RTT_NO_MEASUREMENT = -1_ns`. -/
def RTT_NO_MEASUREMENT : Int := -1

/-- `FaceInfo::RTT_TIMEOUT = -2_ns`. -/
def RTT_TIMEOUT : Int := -2

/-- `class FaceInfo`: per-(namespace, face) measurement record.
Fields mirror the C++ data members; the two `ScopedEventId` slots hold the
id of the scheduled event they own, or `none`. -/
structure FaceInfo where
  m_rttEstimator : RttEstimator
  m_lastRtt : Int
  m_lastInterestName : NdnName
  m_nTimeouts : Nat
  m_measurementExpiration : Option Nat
  m_timeoutEvent : Option Nat
deriving Repr, DecidableEq

/-- `FaceInfo::FaceInfo(opts)`: constructs the estimator from the shared
options; the remaining members take their in-class initializers
(`m_lastRtt = RTT_NO_MEASUREMENT`, `m_nTimeouts = 0`, empty name, empty
event handles). -/
def FaceInfo.construct (opts : Nat) : FaceInfo :=
  { m_rttEstimator := ⟨opts, []⟩
    m_lastRtt := RTT_NO_MEASUREMENT
    m_lastInterestName := []
    m_nTimeouts := 0
    m_measurementExpiration := none
    m_timeoutEvent := none }

/-- `FaceInfo::isTimeoutScheduled() const { return !!m_timeoutEvent; }` -/
def FaceInfo.isTimeoutScheduled (fi : FaceInfo) : Bool :=
  fi.m_timeoutEvent.isSome

/-- `FaceInfo::recordRtt(rtt)`:
`m_lastRtt = rtt; m_rttEstimator.addMeasurement(rtt);` -/
def FaceInfo.recordRtt (fi : FaceInfo) (rtt : Int) : FaceInfo :=
  { fi with m_lastRtt := rtt
            m_rttEstimator := fi.m_rttEstimator.addMeasurement rtt }

/-- `FaceInfo::getLastRtt() const { return m_lastRtt; }` -/
def FaceInfo.getLastRtt (fi : FaceInfo) : Int :=
  fi.m_lastRtt

/-- `FaceInfo::getNTimeouts() const { return m_nTimeouts; }` -/
def FaceInfo.getNTimeouts (fi : FaceInfo) : Nat :=
  fi.m_nTimeouts

/-- `FaceInfo::setNTimeouts(n)`. -/
def FaceInfo.setNTimeouts (fi : FaceInfo) (n : Nat) : FaceInfo :=
  { fi with m_nTimeouts := n }

/-- Modelled from the spec: the body of `FaceInfo::cancelTimeout(prefix)` is
in the repository's `asf-measurements.cpp`, which is not among the supplied
sources. Per the spec it "cancels the pending timer if any; a no-op if none
is pending": the held event (if any) is cancelled in the scheduler and the
handle is cleared. -/
def FaceInfo.cancelTimeout (fi : FaceInfo) (s : Sched) (pfx : NdnName) : FaceInfo × Sched :=
  ({ fi with m_timeoutEvent := none }, cancelEvent fi.m_timeoutEvent s)

/-- `FaceInfo::recordTimeout(interestName)`:
`m_lastRtt = RTT_TIMEOUT; cancelTimeout(interestName);` (header inline). -/
def FaceInfo.recordTimeout (fi : FaceInfo) (s : Sched) (interestName : NdnName) : FaceInfo × Sched :=
  FaceInfo.cancelTimeout { fi with m_lastRtt := RTT_TIMEOUT } s interestName

/-- Modelled from the spec: the body of
`FaceInfo::scheduleTimeout(interestName, cb)` is in the repository's
`asf-measurements.cpp`, which is not among the supplied sources. Per the
spec it "overwrites — cancelling first — any previously pending timeout
timer": it cancels the currently held event (if any), records the interest
name, schedules the new callback, and stores the new event's handle. (The
returned RTO duration is computed by the external estimator and is not
modelled.) -/
def FaceInfo.scheduleTimeout (fi : FaceInfo) (s : Sched) (interestName : NdnName) : FaceInfo × Sched :=
  let s1 := cancelEvent fi.m_timeoutEvent s
  let p := s1.schedule
  ({ fi with m_lastInterestName := interestName
             m_timeoutEvent := some p.1 },
   p.2)

/-- `AsfMeasurements::DEFAULT_MEASUREMENTS_LIFETIME = 5_min`, a
`time::milliseconds` constant, hence 5 * 60 * 1000 ms. -/
def DEFAULT_MEASUREMENTS_LIFETIME : Int := 5 * 60 * 1000

/-- `class AsfMeasurements` (the external measurement store it accesses by
reference is passed to the operations that need it). -/
structure AsfMeasurements where
  m_measurementsLifetime : Int
deriving Repr, DecidableEq

/-- `AsfMeasurements::AsfMeasurements(measurements)`:
`m_measurementsLifetime` takes its in-class initializer
`DEFAULT_MEASUREMENTS_LIFETIME`. -/
def AsfMeasurements.construct : AsfMeasurements :=
  ⟨DEFAULT_MEASUREMENTS_LIFETIME⟩

/-- `AsfMeasurements::setMeasurementsLifetime(l)`:
`BOOST_ASSERT(measurementsLifetime > 0_ms); m_measurementsLifetime = l;`.
The assertion is modelled as `Option`: `none` is the loud assertion
failure, `some` the updated object. -/
def AsfMeasurements.setMeasurementsLifetime (m : AsfMeasurements) (l : Int) : Option AsfMeasurements :=
  if 0 < l then some { m with m_measurementsLifetime := l } else none

/-- `AsfMeasurements::getMeasurementsLifetime() const`. -/
def AsfMeasurements.getMeasurementsLifetime (m : AsfMeasurements) : Int :=
  m.m_measurementsLifetime

/-- An entry of the external longest-prefix-match measurement store: its
trie key (a name) and its expiry instant. -/
structure MEntry where
  key : NdnName
  expiry : Int
deriving Repr, DecidableEq

/-- `a` is the key of a strict ancestor of the entry keyed `b` in the
store's trie: a proper prefix of it. -/
def isAncKeyOf (a b : NdnName) : Bool :=
  a.isPrefixOf b && a.length < b.length

/-- Modelled from the spec: the body of
`AsfMeasurements::extendLifetime(me)` is in the repository's
`asf-measurements.cpp`, which is not among the supplied sources. Per the
spec it "extends the given store entry's own expiry AND recursively extends
every strict ancestor of that entry up to the store's root": every store
entry whose key is the target entry's key or a strict ancestor of it has
its expiry pushed out to at least `now + m_measurementsLifetime` (never
shortened); other entries are untouched. -/
def AsfMeasurements.extendLifetime (m : AsfMeasurements) (store : List MEntry)
    (target : NdnName) (now : Int) : List MEntry :=
  store.map (fun e =>
    if e.key = target ∨ isAncKeyOf e.key target
    then { e with expiry := max e.expiry (now + m.m_measurementsLifetime) }
    else e)

/-- One mutating `FaceInfo` operation, for stating invariants over
arbitrary call sequences. `rtt d` is `recordRtt(d)`, `timeoutRec nm` is
`recordTimeout(nm)`, `schedule nm` is `scheduleTimeout(nm, cb)`,
`cancel nm` is `cancelTimeout(nm)`, `setNT n` is `setNTimeouts(n)`. -/
inductive FOp where
  | rtt (d : Int)
  | timeoutRec (nm : NdnName)
  | schedule (nm : NdnName)
  | cancel (nm : NdnName)
  | setNT (n : Nat)
deriving Repr, DecidableEq

/-- Apply one operation to a (FaceInfo, scheduler) pair. -/
def applyOp (p : FaceInfo × Sched) (op : FOp) : FaceInfo × Sched :=
  match op with
  | .rtt d => (p.1.recordRtt d, p.2)
  | .timeoutRec nm => p.1.recordTimeout p.2 nm
  | .schedule nm => p.1.scheduleTimeout p.2 nm
  | .cancel nm => p.1.cancelTimeout p.2 nm
  | .setNT n => (p.1.setNTimeouts n, p.2)

/-- Run a sequence of operations. -/
def runOps (p : FaceInfo × Sched) (ops : List FOp) : FaceInfo × Sched :=
  ops.foldl applyOp p

/-- The `lastRtt` value is one of the two sentinels or a positive duration. -/
def rttInv (r : Int) : Prop :=
  r = RTT_NO_MEASUREMENT ∨ r = RTT_TIMEOUT ∨ 0 < r

/-- The single-FaceInfo timer scenario is well formed: every pending event
id is below the scheduler's fresh counter, and the pending set is exactly
the event held by this FaceInfo's `m_timeoutEvent` handle (every pending
callback is one this FaceInfo scheduled). -/
def WFTimeout (fi : FaceInfo) (s : Sched) : Prop :=
  (∀ i ∈ s.pending, i < s.nextId) ∧ s.pending = fi.m_timeoutEvent.toList

/-- Run one `scheduleTimeout` per name in the list. -/
def runScheds (p : FaceInfo × Sched) (nms : List NdnName) : FaceInfo × Sched :=
  nms.foldl (fun q nm => q.1.scheduleTimeout q.2 nm) p

/-- Number of callbacks that still fire if the event loop now runs every
pending event: a counter incremented by each callback ends at this value. -/
def firedCount (s : Sched) : Nat :=
  s.pending.length

/-! ## Theorems -/

/-- Claim C9: a freshly constructed FaceInfo (before any recordRtt,
recordTimeout, or scheduleTimeout call) has `getLastRtt() =
RTT_NO_MEASUREMENT`, `getNTimeouts() = 0`, and `isTimeoutScheduled() =
false`. -/
theorem c9_construct_defaults (opts : Nat) :
    (FaceInfo.construct opts).getLastRtt = RTT_NO_MEASUREMENT ∧
    (FaceInfo.construct opts).getNTimeouts = 0 ∧
    (FaceInfo.construct opts).isTimeoutScheduled = false :=
  ⟨rfl, rfl, rfl⟩

/-- Claim C10: a freshly constructed AsfMeasurements reports
`DEFAULT_MEASUREMENTS_LIFETIME` as its measurements lifetime, and that
constant equals 5 minutes (in milliseconds). -/
theorem c10_default_lifetime :
    AsfMeasurements.construct.getMeasurementsLifetime = DEFAULT_MEASUREMENTS_LIFETIME ∧
    DEFAULT_MEASUREMENTS_LIFETIME = 5 * 60 * 1000 :=
  ⟨rfl, rfl⟩

/-- Claim C4: for every state and positive duration `d`, `recordRtt(d)`
sets `getLastRtt()` to exactly the raw sample `d`, feeds `d` to the RTT
estimator, and changes no timer state (both event handles and
`isTimeoutScheduled()` are unchanged; `recordRtt` never touches the
scheduler). -/
theorem c4_recordRtt_raw_sample (fi : FaceInfo) (d : Int) (hd : 0 < d) :
    (fi.recordRtt d).getLastRtt = d ∧
    (fi.recordRtt d).m_rttEstimator.samples = fi.m_rttEstimator.samples ++ [d] ∧
    (fi.recordRtt d).isTimeoutScheduled = fi.isTimeoutScheduled ∧
    (fi.recordRtt d).m_timeoutEvent = fi.m_timeoutEvent ∧
    (fi.recordRtt d).m_measurementExpiration = fi.m_measurementExpiration :=
  ⟨rfl, rfl, rfl, rfl, rfl⟩

/-- Witness for C4 at a concrete state and sample. -/
theorem c4_recordRtt_raw_sample_witness :
    ((FaceInfo.construct 0).recordRtt 5).getLastRtt = 5 :=
  (c4_recordRtt_raw_sample (FaceInfo.construct 0) 5 (by decide)).1

/-- Claim C8: `recordTimeout(name)` leaves the timeout counter unchanged:
`getNTimeouts()` is the same before and after. -/
theorem c8_recordTimeout_preserves_nTimeouts (fi : FaceInfo) (s : Sched) (nm : NdnName) :
    (fi.recordTimeout s nm).1.getNTimeouts = fi.getNTimeouts :=
  rfl

/-- Claim C2: after `recordTimeout(name)`, `getLastRtt()` is the
`RTT_TIMEOUT` sentinel, `isTimeoutScheduled()` is false, and any
previously pending timeout event has been cancelled (its id is no longer
pending in the scheduler). -/
theorem c2_recordTimeout_sets_sentinel (fi : FaceInfo) (s : Sched) (nm : NdnName) :
    (fi.recordTimeout s nm).1.getLastRtt = RTT_TIMEOUT ∧
    (fi.recordTimeout s nm).1.isTimeoutScheduled = false ∧
    ((fi.recordTimeout s nm).2.pending.all fun j => fi.m_timeoutEvent != some j) = true := by
  refine ⟨rfl, rfl, ?_⟩
  cases he : fi.m_timeoutEvent with
  | none =>
      simp [FaceInfo.recordTimeout, FaceInfo.cancelTimeout, cancelEvent, he]
  | some i =>
      simp only [FaceInfo.recordTimeout, FaceInfo.cancelTimeout, cancelEvent, Sched.cancelId, he,
        List.all_eq_true, List.mem_filter, decide_eq_true_eq]
      intro j hj
      simp only [bne_iff_ne, ne_eq, Option.some.injEq]
      exact fun h => hj.2 (h ▸ rfl)

/-- Claim C7: `cancelTimeout` on a FaceInfo with no pending timer is a
no-op that does not fail, `cancelTimeout` is idempotent, and after any
`cancelTimeout` call `isTimeoutScheduled()` is false. -/
theorem c7_cancelTimeout_noop_idempotent (fi : FaceInfo) (s : Sched) (pfx : NdnName) :
    (fi.m_timeoutEvent = none → fi.cancelTimeout s pfx = (fi, s)) ∧
    (fi.cancelTimeout s pfx).1.cancelTimeout (fi.cancelTimeout s pfx).2 pfx
      = fi.cancelTimeout s pfx ∧
    (fi.cancelTimeout s pfx).1.isTimeoutScheduled = false := by
  refine ⟨?_, ?_, rfl⟩
  · intro h
    cases fi
    simp_all [FaceInfo.cancelTimeout, cancelEvent]
  · cases fi
    simp [FaceInfo.cancelTimeout, cancelEvent]

/-- Witness for C7 at a concrete state with no pending timer. -/
theorem c7_cancelTimeout_noop_idempotent_witness :
    (FaceInfo.construct 0).cancelTimeout ⟨0, []⟩ [] = (FaceInfo.construct 0, ⟨0, []⟩) :=
  (c7_cancelTimeout_noop_idempotent (FaceInfo.construct 0) ⟨0, []⟩ []).1 rfl

/-- Claim C5: `setMeasurementsLifetime(l)` with `l ≤ 0` fails loudly (the
modelled assertion yields `none` rather than silently ignoring the call);
for `l > 0` it succeeds and `getMeasurementsLifetime()` then returns `l`. -/
theorem c5_setMeasurementsLifetime_contract (m : AsfMeasurements) (l : Int) :
    (l ≤ 0 → m.setMeasurementsLifetime l = none) ∧
    (0 < l → ∃ m2, m.setMeasurementsLifetime l = some m2 ∧
      m2.getMeasurementsLifetime = l) := by
  constructor
  · intro h
    simp [AsfMeasurements.setMeasurementsLifetime, not_lt.mpr h]
  · intro h
    refine ⟨{ m with m_measurementsLifetime := l }, ?_, rfl⟩
    simp [AsfMeasurements.setMeasurementsLifetime, h]

/-- Witness for C5 at concrete lifetimes -1 (rejected) and 7 (accepted). -/
theorem c5_setMeasurementsLifetime_contract_witness :
    AsfMeasurements.construct.setMeasurementsLifetime (-1) = none ∧
    ∃ m2, AsfMeasurements.construct.setMeasurementsLifetime 7 = some m2 ∧
      m2.getMeasurementsLifetime = 7 :=
  ⟨(c5_setMeasurementsLifetime_contract AsfMeasurements.construct (-1)).1 (by decide),
   (c5_setMeasurementsLifetime_contract AsfMeasurements.construct 7).2 (by decide)⟩

/-- Helper: every operation preserves the lastRtt classification, provided
each `recordRtt` sample in the sequence is positive. -/
theorem runOps_preserves_rttInv (ops : List FOp) (p : FaceInfo × Sched)
    (hp : rttInv p.1.m_lastRtt)
    (hpos : ∀ d, FOp.rtt d ∈ ops → 0 < d) :
    rttInv (runOps p ops).1.m_lastRtt := by
  induction ops generalizing p with
  | nil => exact hp
  | cons op rest ih =>
      have hstep : rttInv (applyOp p op).1.m_lastRtt := by
        cases op with
        | rtt d => exact Or.inr (Or.inr (hpos d (by simp)))
        | timeoutRec nm => exact Or.inr (Or.inl rfl)
        | schedule nm => exact hp
        | cancel nm => exact hp
        | setNT n => exact hp
      exact ih (applyOp p op) hstep (fun d hd => hpos d (List.mem_cons_of_mem _ hd))

/-- Claim C6: starting from a freshly constructed FaceInfo, after any
sequence of operations whose `recordRtt` samples are all positive,
`lastRtt` is either `RTT_NO_MEASUREMENT`, `RTT_TIMEOUT`, or a positive
duration. -/
theorem c6_lastRtt_sentinel_or_positive (opts : Nat) (s : Sched) (ops : List FOp)
    (hpos : ∀ d, FOp.rtt d ∈ ops → 0 < d) :
    rttInv (runOps (FaceInfo.construct opts, s) ops).1.m_lastRtt :=
  runOps_preserves_rttInv ops (FaceInfo.construct opts, s) (Or.inl rfl) hpos

/-- Witness for C6 on a concrete operation sequence. -/
theorem c6_lastRtt_sentinel_or_positive_witness :
    rttInv (runOps (FaceInfo.construct 0, ⟨0, []⟩)
      [FOp.rtt 5, FOp.schedule [1], FOp.timeoutRec [1], FOp.rtt 3, FOp.setNT 2]).1.m_lastRtt :=
  c6_lastRtt_sentinel_or_positive 0 ⟨0, []⟩ _ (by
    intro d hd
    simp only [List.mem_cons, List.not_mem_nil, or_false] at hd
    rcases hd with h | h | h | h | h <;> first
      | (cases h; decide)
      | exact absurd h (by simp))

/-- Helper: one `scheduleTimeout` from a well-formed state cancels the held
event, installs a fresh one, and leaves exactly that one event pending. -/
theorem scheduleTimeout_step (fi : FaceInfo) (s : Sched) (nm : NdnName)
    (h : WFTimeout fi s) :
    WFTimeout (fi.scheduleTimeout s nm).1 (fi.scheduleTimeout s nm).2 ∧
    (fi.scheduleTimeout s nm).2.pending = [s.nextId] ∧
    (fi.scheduleTimeout s nm).1.m_timeoutEvent = some s.nextId := by
  obtain ⟨hlt, hpend⟩ := h
  cases he : fi.m_timeoutEvent with
  | none =>
      rw [he] at hpend
      simp only [Option.toList_none] at hpend
      refine ⟨⟨?_, ?_⟩, ?_, ?_⟩ <;>
        simp [FaceInfo.scheduleTimeout, Sched.schedule, cancelEvent, he, hpend]
  | some i =>
      rw [he] at hpend
      simp only [Option.toList_some] at hpend
      refine ⟨⟨?_, ?_⟩, ?_, ?_⟩ <;>
        simp [FaceInfo.scheduleTimeout, Sched.schedule, cancelEvent, Sched.cancelId, he, hpend]

/-- Helper: well-formedness is preserved along any sequence of
`scheduleTimeout` calls, and after a nonempty sequence exactly one event is
pending. -/
theorem runScheds_single_pending (nms : List NdnName) (fi : FaceInfo) (s : Sched)
    (h : WFTimeout fi s) :
    WFTimeout (runScheds (fi, s) nms).1 (runScheds (fi, s) nms).2 ∧
    (nms ≠ [] → (runScheds (fi, s) nms).2.pending.length = 1) := by
  induction nms generalizing fi s with
  | nil => exact ⟨h, fun hne => absurd rfl hne⟩
  | cons nm rest ih =>
      obtain ⟨hwf, hpend, hev⟩ := scheduleTimeout_step fi s nm h
      have hrun : runScheds (fi, s) (nm :: rest)
          = runScheds ((fi.scheduleTimeout s nm).1, (fi.scheduleTimeout s nm).2) rest := rfl
      have ihr := ih (fi.scheduleTimeout s nm).1 (fi.scheduleTimeout s nm).2 hwf
      refine ⟨by rw [hrun]; exact ihr.1, fun _ => ?_⟩
      cases rest with
      | nil =>
          rw [hrun]
          simpa [runScheds] using congrArg List.length hpend
      | cons r rs =>
          rw [hrun]
          exact ihr.2 (by simp)

/-- Claim C3: from any well-formed state, `scheduleTimeout` first cancels
the previously pending timeout event (its id is no longer pending) and
installs the new one; hence after any nonempty sequence of
`scheduleTimeout` calls exactly one callback is still due to fire — a
counter incremented by each fired callback ends at 1, not 2. -/
theorem c3_scheduleTimeout_cancels_previous (fi : FaceInfo) (s : Sched)
    (nm : NdnName) (nms : List NdnName) (h : WFTimeout fi s) :
    (∀ i, fi.m_timeoutEvent = some i → i ∉ (fi.scheduleTimeout s nm).2.pending) ∧
    (fi.scheduleTimeout s nm).1.m_timeoutEvent = some s.nextId ∧
    firedCount (runScheds (fi, s) (nm :: nms)).2 = 1 := by
  obtain ⟨hwf, hpend, hev⟩ := scheduleTimeout_step fi s nm h
  refine ⟨?_, hev, ?_⟩
  · intro i hi
    rw [hpend]
    have : i ∈ s.pending := by rw [h.2, hi]; simp
    have hlt := h.1 i this
    simp only [List.mem_singleton]
    omega
  · exact (runScheds_single_pending (nm :: nms) fi s h).2 (by simp)

/-- Witness for C3: two consecutive `scheduleTimeout` calls from a fresh
state leave exactly one pending callback. -/
theorem c3_scheduleTimeout_cancels_previous_witness :
    firedCount (runScheds (FaceInfo.construct 0, ⟨0, []⟩) [[1], [2]]).2 = 1 :=
  (c3_scheduleTimeout_cancels_previous (FaceInfo.construct 0) ⟨0, []⟩ [1] [[2]]
    (by constructor <;> simp [FaceInfo.construct])).2.2

/-- Claim C1: `extendLifetime` on a measurement entry extends the expiry of
that entry itself and of every strict ancestor entry on the path up to the
store's root (their new expiry is at least `now + measurementsLifetime` and
never below the old value); every other entry is untouched. -/
theorem c1_extendLifetime_extends_ancestors (m : AsfMeasurements) (store : List MEntry)
    (target : NdnName) (now : Int) (e : MEntry) (he : e ∈ store) :
    ((e.key = target ∨ isAncKeyOf e.key target) →
      ∃ e2 ∈ m.extendLifetime store target now,
        e2.key = e.key ∧ now + m.m_measurementsLifetime ≤ e2.expiry ∧
          e.expiry ≤ e2.expiry) ∧
    (¬(e.key = target ∨ isAncKeyOf e.key target) →
      e ∈ m.extendLifetime store target now) := by
  constructor
  · intro hc
    refine ⟨{ e with expiry := max e.expiry (now + m.m_measurementsLifetime) },
      List.mem_map.mpr ⟨e, he, by rw [if_pos hc]⟩, rfl, le_max_right _ _, le_max_left _ _⟩
  · intro hc
    exact List.mem_map.mpr ⟨e, he, by rw [if_neg hc]⟩

/-- Witness for C1 on a four-entry store with an entry three levels deep:
the mid-path ancestor keyed `[1]` of the target `[1, 2, 3]` is extended. -/
theorem c1_extendLifetime_extends_ancestors_witness :
    ∃ e2 ∈ AsfMeasurements.construct.extendLifetime
        [⟨[], 0⟩, ⟨[1], 10⟩, ⟨[1, 2], 20⟩, ⟨[1, 2, 3], 30⟩] [1, 2, 3] 100,
      e2.key = [1] ∧
        100 + AsfMeasurements.construct.m_measurementsLifetime ≤ e2.expiry ∧
        (10 : Int) ≤ e2.expiry := by
  exact (c1_extendLifetime_extends_ancestors AsfMeasurements.construct
    [⟨[], 0⟩, ⟨[1], 10⟩, ⟨[1, 2], 20⟩, ⟨[1, 2, 3], 30⟩] [1, 2, 3] 100
    ⟨[1], 10⟩ (by simp)).1 (by right; decide)
